import Mathlib

/-!
# Cookie consent manager (`cookie-consent.js`)

A shallow embedding of the consent script: the three `localStorage` entries it
reads and writes, the DOM elements it looks up, the two `window` flags that
guard the analytics loaders, and every function of the script that touches
them.  A JavaScript `TypeError` (property access on `null`) is an abrupt
completion: the function stops there and the mutations made so far stay.

Left out: `attachEventListeners` (which handler a click reaches; `Op` lets
every handler run at any time instead), the injected keyframes, and the two
timers that fade and remove a toast.  `localStorage` calls and the two
external loaders are taken not to throw.  Time is an integer number of
milliseconds since the epoch and the host time zone is a parameter.
-/

namespace CookieConsent

/-! ## Constants -/

def CONSENT_KEY : String := "bezott_cookie_consent"
def ANALYTICS_KEY : String := "bezott_analytics_consent"
def CONSENT_TIMESTAMP : String := "bezott_consent_timestamp"
def CONSENT_EXPIRY_DAYS : Int := 365

/-! ## localStorage -/

/-- The key/value content of `localStorage`: `none` is what `getItem` returns
as `null` for a key that is not stored. -/
abbrev LocalStorage := String → Option String

def getItem (ls : LocalStorage) (key : String) : Option String := ls key

def setItem (ls : LocalStorage) (key value : String) : LocalStorage :=
  fun k => if k = key then some value else ls k

def removeItem (ls : LocalStorage) (key : String) : LocalStorage :=
  fun k => if k = key then none else ls k

/-- JavaScript truthiness of a value that is `null` or a string: only `null`
and the empty string are falsy. -/
def truthy : Option String → Bool
  | none => false
  | some s => s != ""

/-- The result of `Boolean.prototype.toString`. -/
def boolToString (b : Bool) : String := if b then "true" else "false"

/-- The result of `Number.prototype.toString` on an integral time value
(decimal digits, a leading minus sign when negative). -/
def numberToString (n : Int) : String := toString n

/-! ## `parseInt` -/

/-- The code points `parseInt` skips at the start of its input: ECMAScript
WhiteSpace and LineTerminator. -/
def isWhiteSpace (c : Char) : Bool :=
  let n := c.toNat
  n = 0x9 || n = 0xA || n = 0xB || n = 0xC || n = 0xD || n = 0x20 || n = 0xA0 ||
  n = 0x1680 || (0x2000 ≤ n && n ≤ 0x200A) || n = 0x2028 || n = 0x2029 ||
  n = 0x202F || n = 0x205F || n = 0x3000 || n = 0xFEFF

/-- The value of a character as a digit, letters counting from ten. -/
def digitValue (c : Char) : Option Nat :=
  let n := c.toNat
  if 48 ≤ n ∧ n ≤ 57 then some (n - 48)
  else if 97 ≤ n ∧ n ≤ 122 then some (n - 97 + 10)
  else if 65 ≤ n ∧ n ≤ 90 then some (n - 65 + 10)
  else none

/-- The values of the longest run of radix digits at the start of the input. -/
def leadingDigits (radix : Nat) : List Char → List Nat
  | [] => []
  | c :: cs =>
    match digitValue c with
    | some d => if d < radix then d :: leadingDigits radix cs else []
    | none => []

def digitsValue (radix : Nat) (ds : List Nat) : Nat :=
  ds.foldl (fun acc d => acc * radix + d) 0

/-- The digits part of `parseInt`: `none` (NaN) when no digit is found. -/
def parseMagnitude (cs : List Char) : Option Nat :=
  match cs with
  | '0' :: 'x' :: rest | '0' :: 'X' :: rest =>
    match leadingDigits 16 rest with
    | [] => none
    | ds => some (digitsValue 16 ds)
  | _ =>
    match leadingDigits 10 cs with
    | [] => none
    | ds => some (digitsValue 10 ds)

/-- `parseInt(string)` with no radix argument, as the mathematical integer
before it is rounded to a double; `none` is NaN.  Leading white space is
dropped, then an optional sign, then an optional `0x`, then the longest run of
digits is read. -/
def parseInt (s : String) : Option Int :=
  match s.toList.dropWhile isWhiteSpace with
  | '-' :: rest => (parseMagnitude rest).map (fun m => - (m : Int))
  | '+' :: rest => (parseMagnitude rest).map (fun m => (m : Int))
  | cs => (parseMagnitude cs).map (fun m => (m : Int))

/-! ## `Date` -/

def msPerDay : Int := 86400000

/-- The largest magnitude of an ECMAScript time value, 8.64e15 ms. -/
def maxTimeValue : Int := 8640000000000000

/-- The `[[DateValue]]` of a `Date` object: milliseconds since the epoch, or
`none` for NaN (an invalid date). -/
abbrev DateValue := Option Int

def isTimeValue (t : Int) : Prop := -maxTimeValue ≤ t ∧ t ≤ maxTimeValue

instance (t : Int) : Decidable (isTimeValue t) := by
  unfold isTimeValue; infer_instance

/-- ECMAScript TimeClip.  Integers up to 2^53 are exact doubles and 2^53
exceeds 8.64e15, so clipping the unrounded integer gives the same result as
clipping its double. -/
def timeClip (t : Int) : DateValue :=
  if isTimeValue t then some t else none

/-- The host time zone: the offset of local time from UTC in milliseconds, as
a function of a UTC instant (`LocalTZA(t, true)`) and of a local wall-clock
time (`LocalTZA(t, false)`). -/
structure TimeZone where
  offsetOfUTC : Int → Int
  offsetOfLocal : Int → Int

/-- `new Date(value)` for a numeric value, NaN included. -/
def newDateOfNumber (value : Option Int) : DateValue :=
  value.bind timeClip

/-- `new Date()`: the current time value. -/
def newDateNow (now : Int) : DateValue := some now

/-- The effect of `d.setDate(d.getDate() + delta)` on the date value.
`getDate` is the day of the month of the local time `t`, and `setDate(dt)`
rebuilds the local time from `MakeDay(year, month, dt)` and the time within
the day; `MakeDay` is the day number of the first of that month plus `dt - 1`,
so the local time moves by exactly `delta` days and is then converted back to
UTC and clipped. -/
def setDateRelative (tz : TimeZone) (d : DateValue) (delta : Int) : DateValue :=
  d.bind fun t =>
    let tLocal := t + tz.offsetOfUTC t
    let newDate := tLocal + delta * msPerDay
    timeClip (newDate - tz.offsetOfLocal newDate)

/-- The relational `a < b` on two `Date` objects: each is converted to its
time value and a comparison with NaN is false. -/
def dateLt : DateValue → DateValue → Bool
  | some a, some b => decide (a < b)
  | _, _ => false

/-! ## Page state -/

inductive Provider
  | google
  | cloudflare
deriving DecidableEq, Repr

/-- The object returned by `window.bezottCookies.getConsent()`. -/
structure ConsentSnapshot where
  consent : Option String
  analytics : Option String
  timestamp : Option String
deriving DecidableEq, Repr

/-- What the script does to its collaborators, in order.  An analytics event
carries the stored consent at the moment it happens. -/
inductive Event
  | loadAnalyticsCalled (stored : ConsentSnapshot)
  | loaderInvoked (which : Provider) (stored : ConsentSnapshot)
  | consoleLog (msg : String)
  | toast (msg : String)
deriving DecidableEq, Repr

/-- Everything the script reads or writes.  An element is `none` when
`document.getElementById` found nothing; for the banner and the modal the
boolean is membership of `show` in the class list, for the toggle it is
`checked`. -/
structure Page where
  localStorage : LocalStorage
  cookieConsent : Option Bool
  cookieModal : Option Bool
  analyticsToggle : Option Bool
  bodyOverflow : String
  gaLoaded : Bool
  cfAnalyticsLoaded : Bool
  googleLoaderDefined : Bool
  cloudflareLoaderDefined : Bool
  bannerTimers : Nat
  events : List Event

inductive Completion
  | normal
  | typeError
deriving DecidableEq, Repr

/-- The page a function leaves behind and how it completed. -/
structure Outcome where
  page : Page
  completion : Completion

def Outcome.ok (p : Page) : Outcome := ⟨p, .normal⟩

def Outcome.throw (p : Page) : Outcome := ⟨p, .typeError⟩

/-- Sequencing of statements: the next statement runs only after a normal
completion. -/
def Outcome.next (o : Outcome) (f : Page → Outcome) : Outcome :=
  match o.completion with
  | .normal => f o.page
  | .typeError => o

def getConsent (p : Page) : ConsentSnapshot :=
  { consent := getItem p.localStorage CONSENT_KEY
    analytics := getItem p.localStorage ANALYTICS_KEY
    timestamp := getItem p.localStorage CONSENT_TIMESTAMP }

/-! ## The functions of the script -/

/-- `showBanner` only schedules its callback. -/
def showBanner (p : Page) : Outcome :=
  .ok { p with bannerTimers := p.bannerTimers + 1 }

/-- The callback `showBanner` scheduled, when its timer fires. -/
def showBannerCallback (p : Page) : Outcome :=
  match p.bannerTimers with
  | 0 => .ok p
  | n + 1 =>
    let p1 := { p with bannerTimers := n }
    match p1.cookieConsent with
    | none => .throw p1
    | some _ => .ok { p1 with cookieConsent := some true }

def hideBanner (p : Page) : Outcome :=
  match p.cookieConsent with
  | none => .throw p
  | some _ => .ok { p with cookieConsent := some false }

def showModal (p : Page) : Outcome :=
  match p.cookieModal with
  | none => .throw p
  | some _ =>
    let p1 := { p with cookieModal := some true }
    let analyticsConsent := getItem p1.localStorage ANALYTICS_KEY
    let p2 :=
      match p1.analyticsToggle with
      | some _ => { p1 with analyticsToggle := some (analyticsConsent == some "true") }
      | none => p1
    .ok { p2 with bodyOverflow := "hidden" }

def hideModal (p : Page) : Outcome :=
  match p.cookieModal with
  | none => .throw p
  | some _ => .ok { p with cookieModal := some false, bodyOverflow := "" }

def saveConsent (consentType : String) (analyticsEnabled : Bool) (now : Int)
    (p : Page) : Page :=
  let ls1 := setItem p.localStorage CONSENT_KEY consentType
  let ls2 := setItem ls1 ANALYTICS_KEY (boolToString analyticsEnabled)
  let ls3 := setItem ls2 CONSENT_TIMESTAMP (numberToString now)
  { p with localStorage := ls3 }

def clearConsent (p : Page) : Page :=
  let ls1 := removeItem p.localStorage CONSENT_KEY
  let ls2 := removeItem ls1 ANALYTICS_KEY
  let ls3 := removeItem ls2 CONSENT_TIMESTAMP
  { p with localStorage := ls3 }

def logEvent (e : Event) (p : Page) : Page :=
  { p with events := p.events ++ [e] }

def loadAnalytics (p : Page) : Page :=
  let p0 := logEvent (.loadAnalyticsCalled (getConsent p)) p
  if p0.gaLoaded || p0.cfAnalyticsLoaded then p0
  else
    let p1 :=
      if p0.googleLoaderDefined then
        logEvent (.consoleLog "Google Analytics loaded")
          { logEvent (.loaderInvoked .google (getConsent p0)) p0 with gaLoaded := true }
      else p0
    if p1.cloudflareLoaderDefined then
      logEvent (.consoleLog "Cloudflare Analytics loaded")
        { logEvent (.loaderInvoked .cloudflare (getConsent p1)) p1 with
          cfAnalyticsLoaded := true }
    else p1

/-- The toast is appended to the body; its two fade-out timers only restyle
and remove it. -/
def showConfirmationMessage (message : String) (p : Page) : Page :=
  logEvent (.toast message) p

def acceptAll (now : Int) (p : Page) : Outcome :=
  let p1 := saveConsent "accepted" true now p
  (hideBanner p1).next fun p2 =>
    let p3 := loadAnalytics p2
    .ok (showConfirmationMessage "✓ Cookie preferences saved. Thank you!" p3)

def rejectAll (now : Int) (p : Page) : Outcome :=
  let p1 := saveConsent "rejected" false now p
  (hideBanner p1).next fun p2 =>
    .ok (showConfirmationMessage "✓ Only essential cookies will be used." p2)

def saveCustomPreferences (now : Int) (p : Page) : Outcome :=
  let analyticsEnabled :=
    match p.analyticsToggle with
    | some checked => checked
    | none => false
  let p1 := saveConsent "custom" analyticsEnabled now p
  let p2 := if analyticsEnabled then loadAnalytics p1 else p1
  ((hideModal p2).next hideBanner).next fun p3 =>
    .ok (showConfirmationMessage "✓ Your cookie preferences have been saved." p3)

def loadUserPreferences (p : Page) : Page :=
  let analyticsConsent := getItem p.localStorage ANALYTICS_KEY
  if analyticsConsent = some "true" then loadAnalytics p else p

def checkConsent (tz : TimeZone) (now : Int) (p : Page) : Outcome :=
  let consent := getItem p.localStorage CONSENT_KEY
  let timestamp := getItem p.localStorage CONSENT_TIMESTAMP
  let expired :=
    match timestamp with
    | none => false
    | some ts =>
      if truthy (some ts) then
        let consentDate := newDateOfNumber (parseInt ts)
        let expiryDate := setDateRelative tz (newDateNow now) (- CONSENT_EXPIRY_DAYS)
        dateLt consentDate expiryDate
      else false
  if expired then showBanner (clearConsent p)
  else if !truthy consent then showBanner p
  else .ok (loadUserPreferences p)

/-! ## Page lifetimes -/

/-- What can happen to the page, one event handler at a time: the functions
of the script, the banner timer firing, and the user setting the toggle. -/
inductive Op
  | checkConsent (now : Int)
  | acceptAll (now : Int)
  | rejectAll (now : Int)
  | saveCustomPreferences (now : Int)
  | clearConsent
  | showBanner
  | showModal
  | hideModal
  | bannerTimerFires
  | userSetsToggle (checked : Bool)
deriving DecidableEq, Repr

/-- One handler run.  An uncaught `TypeError` ends the handler only; the page
keeps what was done before it. -/
def step (tz : TimeZone) (op : Op) (p : Page) : Page :=
  match op with
  | .checkConsent now => (checkConsent tz now p).page
  | .acceptAll now => (acceptAll now p).page
  | .rejectAll now => (rejectAll now p).page
  | .saveCustomPreferences now => (saveCustomPreferences now p).page
  | .clearConsent => clearConsent p
  | .showBanner => (showBanner p).page
  | .showModal => (showModal p).page
  | .hideModal => (hideModal p).page
  | .bannerTimerFires => (showBannerCallback p).page
  | .userSetsToggle checked =>
    match p.analyticsToggle with
    | some _ => { p with analyticsToggle := some checked }
    | none => p

def run (tz : TimeZone) (ops : List Op) (p : Page) : Page :=
  ops.foldl (fun q op => step tz op q) p

/-! ## Observations on the event log -/

def Event.isLoadAnalyticsCalled : Event → Bool
  | .loadAnalyticsCalled _ => true
  | _ => false

def Event.isLoaderInvoked : Event → Bool
  | .loaderInvoked _ _ => true
  | _ => false

/-- The number of calls of `loadAnalytics` in a log. -/
def applyAttempts (es : List Event) : Nat :=
  es.countP Event.isLoadAnalyticsCalled

/-- The loader invocations of a log, in order. -/
def loaderInvocations (es : List Event) : List Event :=
  es.filter Event.isLoaderInvoked

/-- The three conditions on a stored record: the keys are all present or all
absent, an accepted decision has the flag `"true"`, a rejected one `"false"`. -/
def recordInvariant (r : ConsentSnapshot) : Prop :=
  ((r.consent = none ∧ r.analytics = none ∧ r.timestamp = none) ∨
    (r.consent.isSome ∧ r.analytics.isSome ∧ r.timestamp.isSome)) ∧
  (r.consent = some "accepted" → r.analytics = some "true") ∧
  (r.consent = some "rejected" → r.analytics = some "false")

/-- The local UTC offset in force `CONSENT_EXPIRY_DAYS` calendar days before
`now` is the one in force at `now`. -/
def sameOffsetAtExpiry (tz : TimeZone) (now : Int) : Prop :=
  tz.offsetOfLocal (now + tz.offsetOfUTC now - CONSENT_EXPIRY_DAYS * msPerDay)
    = tz.offsetOfUTC now

/-! ## Concrete pages and time zones -/

def utc : TimeZone := ⟨fun _ => 0, fun _ => 0⟩

/-- Europe/Berlin from 2025 to 2027: one hour ahead of UTC, two hours between
the last Sunday of March and the last Sunday of October, both at 01:00 UTC.  A
local time that a transition skips or repeats takes the offset in force before
the transition. -/
def europeBerlin : TimeZone where
  offsetOfUTC t :=
    if t < 1743296400000 then 3600000
    else if t < 1761440400000 then 7200000
    else if t < 1774746000000 then 3600000
    else if t < 1792890000000 then 7200000
    else if t < 1806195600000 then 3600000
    else if t < 1824944400000 then 7200000
    else 3600000
  offsetOfLocal t :=
    if t < 1743296400000 + 7200000 then 3600000
    else if t < 1761440400000 + 7200000 then 7200000
    else if t < 1774746000000 + 7200000 then 3600000
    else if t < 1792890000000 + 7200000 then 7200000
    else if t < 1806195600000 + 7200000 then 3600000
    else if t < 1824944400000 + 7200000 then 7200000
    else 3600000

/-- A page with every element present, both loaders defined, nothing stored
and nothing loaded yet. -/
def freshPage : Page where
  localStorage := fun _ => none
  cookieConsent := some false
  cookieModal := some false
  analyticsToggle := some false
  bodyOverflow := ""
  gaLoaded := false
  cfAnalyticsLoaded := false
  googleLoaderDefined := true
  cloudflareLoaderDefined := true
  bannerTimers := 0
  events := []

/-- The fresh page with a record in its storage. -/
def pageWithRecord (consent analytics timestamp : Option String) : Page :=
  { freshPage with
    localStorage := fun k =>
      if k = CONSENT_KEY then consent
      else if k = ANALYTICS_KEY then analytics
      else if k = CONSENT_TIMESTAMP then timestamp
      else none }

/-- Nothing is left for `loadAnalytics` to load: a provider flag is set, or
neither loader is defined. -/
def settled (p : Page) : Prop :=
  (p.gaLoaded || p.cfAnalyticsLoaded) = true ∨
    (p.googleLoaderDefined = false ∧ p.cloudflareLoaderDefined = false)

/-- The condition under which `checkConsent` clears the store. -/
def consentExpired (tz : TimeZone) (now : Int) (p : Page) : Bool :=
  match getItem p.localStorage CONSENT_TIMESTAMP with
  | none => false
  | some ts =>
    if truthy (some ts) then
      dateLt (newDateOfNumber (parseInt ts))
        (setDateRelative tz (newDateNow now) (- CONSENT_EXPIRY_DAYS))
    else false

/-- Noon of 28 March 2027 in Berlin, the day summer time began. -/
def berlinSpringNoon : Int := 1806228000000

/-- A record accepted 365 days less half an hour before `berlinSpringNoon`. -/
def berlinSpringPage : Page :=
  pageWithRecord (some "accepted") (some "true") (some "1774693800000")

/-- Noon of 25 October 2026 in Berlin, the day summer time ended. -/
def berlinAutumnNoon : Int := 1792926000000

/-- A record accepted 365 days and half an hour before `berlinAutumnNoon`. -/
def berlinAutumnPage : Page :=
  pageWithRecord (some "accepted") (some "true") (some "1761388200000")

/-- Every loader invocation in the log happened while the stored analytics
flag was `"true"`. -/
def consentGated (es : List Event) : Prop :=
  ∀ w s, Event.loaderInvoked w s ∈ es → s.analytics = some "true"

/-! ## Storage lemmas -/

theorem getItem_setItem_same (ls : LocalStorage) (k v : String) :
    getItem (setItem ls k v) k = some v := by
  simp [getItem, setItem]

theorem getItem_setItem_other (ls : LocalStorage) (k j v : String) (h : j ≠ k) :
    getItem (setItem ls k v) j = getItem ls j := by
  simp [getItem, setItem, h]

theorem getConsent_saveConsent (consentType : String) (b : Bool) (now : Int) (p : Page) :
    getConsent (saveConsent consentType b now p)
      = ⟨some consentType, some (boolToString b), some (numberToString now)⟩ := by
  simp [getConsent, saveConsent, getItem, setItem, CONSENT_KEY, ANALYTICS_KEY,
    CONSENT_TIMESTAMP]

theorem getConsent_clearConsent (p : Page) :
    getConsent (clearConsent p) = ⟨none, none, none⟩ := by
  simp [getConsent, clearConsent, getItem, removeItem, CONSENT_KEY, ANALYTICS_KEY,
    CONSENT_TIMESTAMP]

/-! ## What `loadAnalytics` changes -/

theorem loadAnalytics_localStorage (p : Page) :
    (loadAnalytics p).localStorage = p.localStorage := by
  unfold loadAnalytics logEvent
  dsimp only
  split
  · rfl
  · split <;> split <;> rfl

theorem getConsent_loadAnalytics (p : Page) :
    getConsent (loadAnalytics p) = getConsent p := by
  simp [getConsent, loadAnalytics_localStorage]

theorem loadAnalytics_dom (p : Page) :
    (loadAnalytics p).cookieConsent = p.cookieConsent ∧
    (loadAnalytics p).cookieModal = p.cookieModal ∧
    (loadAnalytics p).analyticsToggle = p.analyticsToggle ∧
    (loadAnalytics p).bodyOverflow = p.bodyOverflow ∧
    (loadAnalytics p).bannerTimers = p.bannerTimers := by
  unfold loadAnalytics logEvent
  dsimp only
  split
  · simp
  · split <;> split <;> simp

/-- The log after `loadAnalytics`: the call itself, then only loader
invocations made under the stored consent of that moment and their console
lines. -/
theorem loadAnalytics_events (p : Page) :
    ∃ rest, (loadAnalytics p).events
        = p.events ++ Event.loadAnalyticsCalled (getConsent p) :: rest ∧
      applyAttempts rest = 0 ∧
      ∀ w s, Event.loaderInvoked w s ∈ rest → s = getConsent p := by
  unfold loadAnalytics logEvent
  dsimp only
  split
  · exact ⟨[], by simp, rfl, by simp⟩
  · split <;> split
    · refine ⟨[.loaderInvoked .google (getConsent p), .consoleLog "Google Analytics loaded",
        .loaderInvoked .cloudflare (getConsent p),
        .consoleLog "Cloudflare Analytics loaded"], by simp [getConsent], rfl, ?_⟩
      intro w s hmem
      simp at hmem
      rcases hmem with ⟨-, rfl⟩ | ⟨-, rfl⟩ <;> rfl
    · refine ⟨[.loaderInvoked .google (getConsent p), .consoleLog "Google Analytics loaded"],
        by simp [getConsent], rfl, ?_⟩
      intro w s hmem
      simp at hmem
      rcases hmem with ⟨-, rfl⟩; rfl
    · refine ⟨[.loaderInvoked .cloudflare (getConsent p),
        .consoleLog "Cloudflare Analytics loaded"], by simp [getConsent], rfl, ?_⟩
      intro w s hmem
      simp at hmem
      rcases hmem with ⟨-, rfl⟩; rfl
    · exact ⟨[], by simp, rfl, by simp⟩

/-! ## The user actions -/

/-- On a page that has the banner element, whatever is stored, shown or
loaded before, `acceptAll` completes normally, leaves the store holding
`accepted`, `"true"` and the current time, calls `loadAnalytics` exactly once,
with that record already stored, and leaves the banner hidden. -/
theorem acceptAll_saves_then_applies_once (now : Int) (p : Page)
    (hbanner : p.cookieConsent.isSome = true) :
    (acceptAll now p).completion = .normal ∧
    getConsent (acceptAll now p).page
      = ⟨some "accepted", some "true", some (numberToString now)⟩ ∧
    (∃ rest, (acceptAll now p).page.events
        = p.events ++ Event.loadAnalyticsCalled
            ⟨some "accepted", some "true", some (numberToString now)⟩ :: rest ∧
      applyAttempts rest = 0) ∧
    (acceptAll now p).page.cookieConsent = some false := by
  obtain ⟨shown, hshown⟩ := Option.isSome_iff_exists.mp hbanner
  have hsave := getConsent_saveConsent "accepted" true now p
  let q : Page := { saveConsent "accepted" true now p with cookieConsent := some false }
  have hq : getConsent q = ⟨some "accepted", some "true", some (numberToString now)⟩ := hsave
  have hrun : acceptAll now p
      = .ok (showConfirmationMessage "✓ Cookie preferences saved. Thank you!"
          (loadAnalytics q)) := by
    simp [acceptAll, hideBanner, saveConsent, hshown, Outcome.next, Outcome.ok, q]
  obtain ⟨rest, hev, hrest, -⟩ := loadAnalytics_events q
  rw [hrun]
  refine ⟨rfl, ?_, ?_, ?_⟩
  · show getConsent (loadAnalytics q) = _
    rw [getConsent_loadAnalytics, hq]
  · refine ⟨rest ++ [.toast "✓ Cookie preferences saved. Thank you!"], ?_, ?_⟩
    · show (loadAnalytics q).events ++ _ = _
      rw [hev, hq]
      simp [q, saveConsent, boolToString]
    · simp [applyAttempts, List.countP_append] at hrest ⊢
      exact ⟨hrest, rfl⟩
  · show (loadAnalytics q).cookieConsent = _
    rw [(loadAnalytics_dom q).1]

theorem acceptAll_saves_then_applies_once_witness :
    (acceptAll 1700000000000 freshPage).completion = .normal ∧
    getConsent (acceptAll 1700000000000 freshPage).page
      = ⟨some "accepted", some "true", some (numberToString 1700000000000)⟩ ∧
    (∃ rest, (acceptAll 1700000000000 freshPage).page.events
        = freshPage.events ++ Event.loadAnalyticsCalled
            ⟨some "accepted", some "true", some (numberToString 1700000000000)⟩ :: rest ∧
      applyAttempts rest = 0) ∧
    (acceptAll 1700000000000 freshPage).page.cookieConsent = some false :=
  acceptAll_saves_then_applies_once 1700000000000 freshPage (by decide)

/-- C3: whatever is stored before and whatever the page holds, `rejectAll`
leaves the store holding `rejected`, `"false"` and the current time, adds no
call of `loadAnalytics` and no loader invocation to the log, and leaves both
provider flags as they were. -/
theorem rejectAll_saves_and_never_loads (now : Int) (p : Page) :
    getConsent (rejectAll now p).page
      = ⟨some "rejected", some "false", some (numberToString now)⟩ ∧
    (∃ added, (rejectAll now p).page.events = p.events ++ added ∧
      applyAttempts added = 0 ∧ loaderInvocations added = []) ∧
    (rejectAll now p).page.gaLoaded = p.gaLoaded ∧
    (rejectAll now p).page.cfAnalyticsLoaded = p.cfAnalyticsLoaded := by
  have hsave := getConsent_saveConsent "rejected" false now p
  cases hb : p.cookieConsent with
  | none =>
    have hrun : rejectAll now p = .throw (saveConsent "rejected" false now p) := by
      simp [rejectAll, hideBanner, saveConsent, hb, Outcome.next, Outcome.throw]
    rw [hrun]
    exact ⟨hsave, ⟨[], by simp [Outcome.throw, saveConsent], rfl, rfl⟩, rfl, rfl⟩
  | some shown =>
    have hrun : rejectAll now p
        = .ok (showConfirmationMessage "✓ Only essential cookies will be used."
            { saveConsent "rejected" false now p with cookieConsent := some false }) := by
      simp [rejectAll, hideBanner, saveConsent, hb, Outcome.next, Outcome.ok]
    rw [hrun]
    exact ⟨hsave, ⟨[.toast "✓ Only essential cookies will be used."], rfl, rfl, rfl⟩,
      rfl, rfl⟩

/-- The statements of `saveCustomPreferences` after the save and the optional
`loadAnalytics`: they leave the store alone and add at most the toast. -/
theorem hide_and_confirm_frame (message : String) (p : Page) :
    (((hideModal p).next hideBanner).next fun q =>
        .ok (showConfirmationMessage message q)).page.localStorage = p.localStorage ∧
    ∃ added, (((hideModal p).next hideBanner).next fun q =>
        .ok (showConfirmationMessage message q)).page.events = p.events ++ added ∧
      applyAttempts added = 0 ∧ loaderInvocations added = [] := by
  cases hm : p.cookieModal <;> cases hb : p.cookieConsent <;>
    simp [hideModal, hideBanner, Outcome.next, Outcome.ok, Outcome.throw, hm, hb,
      showConfirmationMessage, logEvent, applyAttempts, loaderInvocations,
      Event.isLoadAnalyticsCalled, Event.isLoaderInvoked]

/-- C4: whatever is stored before, `saveCustomPreferences` leaves the store
holding `custom`, the stringified toggle value (`"false"` when the toggle is
unchecked or absent) and the current time; it calls `loadAnalytics` exactly
once when the toggle is checked, with that record already stored, and not at
all otherwise. -/
theorem saveCustomPreferences_follows_toggle (now : Int) (p : Page) :
    getConsent (saveCustomPreferences now p).page
      = ⟨some "custom", some (boolToString (decide (p.analyticsToggle = some true))),
          some (numberToString now)⟩ ∧
    ∃ added, (saveCustomPreferences now p).page.events = p.events ++ added ∧
      applyAttempts added = (if p.analyticsToggle = some true then 1 else 0) ∧
      ∀ s, Event.loadAnalyticsCalled s ∈ added →
        s = ⟨some "custom", some "true", some (numberToString now)⟩ := by
  have key : ∀ b : Bool, b = decide (p.analyticsToggle = some true) →
      saveCustomPreferences now p
        = (((hideModal (if b then loadAnalytics (saveConsent "custom" b now p)
              else saveConsent "custom" b now p)).next hideBanner).next fun q =>
            .ok (showConfirmationMessage "✓ Your cookie preferences have been saved." q)) := by
    intro b hb
    subst hb
    rcases ht : p.analyticsToggle with _ | _ | _ <;> simp [saveCustomPreferences, ht]
  have hrun := key _ rfl
  by_cases ht : p.analyticsToggle = some true
  · simp only [ht, decide_True, if_true] at hrun ⊢
    obtain ⟨hls, added, hev, hatt, hinv⟩ := hide_and_confirm_frame
      "✓ Your cookie preferences have been saved."
      (loadAnalytics (saveConsent "custom" true now p))
    obtain ⟨rest, hev2, hrest, -⟩ := loadAnalytics_events (saveConsent "custom" true now p)
    have hsave := getConsent_saveConsent "custom" true now p
    rw [hrun]
    constructor
    · have : getConsent (loadAnalytics (saveConsent "custom" true now p))
          = ⟨some "custom", some (boolToString true), some (numberToString now)⟩ := by
        rw [getConsent_loadAnalytics, hsave]
      simpa [getConsent, hls] using this
    · refine ⟨Event.loadAnalyticsCalled
          ⟨some "custom", some "true", some (numberToString now)⟩ :: (rest ++ added), ?_, ?_, ?_⟩
      · rw [hev, hev2, hsave]
        simp [saveConsent, boolToString]
      · simp only [applyAttempts, List.countP_cons, List.countP_append] at hrest hatt ⊢
        simp [hrest, hatt, Event.isLoadAnalyticsCalled]
      · intro s hs
        simp only [List.mem_cons, List.mem_append] at hs
        rcases hs with hs | hs | hs
        · exact Event.loadAnalyticsCalled.inj hs
        · exfalso
          have := List.countP_eq_zero.mp hrest _ hs
          simp [Event.isLoadAnalyticsCalled] at this
        · exfalso
          have := List.countP_eq_zero.mp hatt _ hs
          simp [Event.isLoadAnalyticsCalled] at this
  · simp only [ht, decide_False, if_false, Bool.false_eq_true, ↓reduceIte] at hrun ⊢
    obtain ⟨hls, added, hev, hatt, hinv⟩ := hide_and_confirm_frame
      "✓ Your cookie preferences have been saved." (saveConsent "custom" false now p)
    have hsave := getConsent_saveConsent "custom" false now p
    rw [hrun]
    constructor
    · simpa [getConsent, hls] using hsave
    · refine ⟨added, ?_, hatt, ?_⟩
      · rw [hev]; simp [saveConsent]
      · intro s hs
        exfalso
        have := List.countP_eq_zero.mp hatt _ hs
        simp [Event.isLoadAnalyticsCalled] at this

/-- C2: on a page without the banner element, both loaders defined,
`acceptAll` writes `accepted`, `"true"` and the current time to the store and
then ends in a `TypeError` inside `hideBanner`, before `loadAnalytics`: it
makes no analytics-apply attempt and invokes no loader, where the same call on
the page with the banner makes exactly one attempt. -/
theorem acceptAll_without_banner_never_applies :
    (acceptAll 1700000000000 { freshPage with cookieConsent := none }).completion
      = .typeError ∧
    getConsent (acceptAll 1700000000000 { freshPage with cookieConsent := none }).page
      = ⟨some "accepted", some "true", some "1700000000000"⟩ ∧
    applyAttempts
      (acceptAll 1700000000000 { freshPage with cookieConsent := none }).page.events = 0 ∧
    loaderInvocations
      (acceptAll 1700000000000 { freshPage with cookieConsent := none }).page.events = [] ∧
    (acceptAll 1700000000000 { freshPage with cookieConsent := none }).page.cfAnalyticsLoaded
      = false ∧
    (acceptAll 1700000000000 freshPage).completion = .normal ∧
    applyAttempts (acceptAll 1700000000000 freshPage).page.events = 1 := by
  decide

/-- C9: on a page without the banner element, `hideBanner` ends in a
`TypeError`; `acceptAll` has then written the store but stops before
`loadAnalytics`, so no loader runs although both are defined.  `rejectAll`,
`showModal`, `hideModal` and the banner timer end the same way when their
element is missing. -/
theorem acceptAll_without_banner_throws :
    (hideBanner { freshPage with cookieConsent := none }).completion = .typeError ∧
    (acceptAll 1700000000000 { freshPage with cookieConsent := none }).completion
      = .typeError ∧
    getConsent (acceptAll 1700000000000 { freshPage with cookieConsent := none }).page
      = ⟨some "accepted", some "true", some "1700000000000"⟩ ∧
    (acceptAll 1700000000000 { freshPage with cookieConsent := none }).page.events = [] ∧
    (acceptAll 1700000000000 { freshPage with cookieConsent := none }).page.gaLoaded = false ∧
    (rejectAll 1700000000000 { freshPage with cookieConsent := none }).completion
      = .typeError ∧
    (showModal { freshPage with cookieModal := none }).completion = .typeError ∧
    (hideModal { freshPage with cookieModal := none }).completion = .typeError ∧
    (showBannerCallback
      (showBanner { freshPage with cookieConsent := none }).page).completion = .typeError := by
  decide

/-! ## Idempotence of `loadAnalytics` -/

theorem loadAnalytics_settles (p : Page) : settled (loadAnalytics p) := by
  unfold settled loadAnalytics logEvent
  dsimp only
  split
  · left; assumption
  · split <;> split <;> simp_all

theorem loadAnalytics_of_settled (p : Page) (h : settled p) :
    loadAnalytics p = logEvent (.loadAnalyticsCalled (getConsent p)) p := by
  unfold settled at h
  unfold loadAnalytics logEvent
  dsimp only
  rcases h with h | ⟨hg, hc⟩
  · simp [h]
  · simp [hg, hc]

/-- On a page with no provider flag set, `loadAnalytics` invokes each defined
loader once, in order, and sets its flag. -/
theorem loadAnalytics_fresh (p : Page)
    (hfresh : p.gaLoaded = false ∧ p.cfAnalyticsLoaded = false) :
    (loadAnalytics p).events
      = p.events ++ [Event.loadAnalyticsCalled (getConsent p)]
        ++ (if p.googleLoaderDefined then
              [Event.loaderInvoked .google (getConsent p),
                Event.consoleLog "Google Analytics loaded"] else [])
        ++ (if p.cloudflareLoaderDefined then
              [Event.loaderInvoked .cloudflare (getConsent p),
                Event.consoleLog "Cloudflare Analytics loaded"] else []) ∧
    (loadAnalytics p).gaLoaded = p.googleLoaderDefined ∧
    (loadAnalytics p).cfAnalyticsLoaded = p.cloudflareLoaderDefined := by
  obtain ⟨hga, hcf⟩ := hfresh
  unfold loadAnalytics logEvent
  dsimp only
  cases hg : p.googleLoaderDefined <;> cases hc : p.cloudflareLoaderDefined <;>
    simp [hga, hcf, getConsent]

theorem iterate_loadAnalytics_settled (p : Page) (n : Nat) (h : settled p) :
    settled (loadAnalytics^[n] p) ∧
    loaderInvocations (loadAnalytics^[n] p).events = loaderInvocations p.events ∧
    (loadAnalytics^[n] p).gaLoaded = p.gaLoaded ∧
    (loadAnalytics^[n] p).cfAnalyticsLoaded = p.cfAnalyticsLoaded := by
  induction n with
  | zero => exact ⟨h, rfl, rfl, rfl⟩
  | succ n ih =>
    obtain ⟨hs, hev, hga, hcf⟩ := ih
    rw [Function.iterate_succ_apply', loadAnalytics_of_settled _ hs]
    refine ⟨?_, ?_, hga, hcf⟩
    · exact hs
    · rw [← hev]
      simp [logEvent, loaderInvocations, Event.isLoaderInvoked]

/-- C7: starting with no provider flag set, for every combination of defined
loaders, calling `loadAnalytics` any number of times greater than zero gives
the same loader invocations and the same provider flags as calling it once:
each defined loader is invoked exactly once, under the stored consent of the
first call, and its flag is set. -/
theorem loadAnalytics_idempotent (p : Page) (n : Nat)
    (hfresh : p.gaLoaded = false ∧ p.cfAnalyticsLoaded = false) :
    loaderInvocations (loadAnalytics^[n + 1] p).events
      = loaderInvocations (loadAnalytics p).events ∧
    (loadAnalytics^[n + 1] p).gaLoaded = (loadAnalytics p).gaLoaded ∧
    (loadAnalytics^[n + 1] p).cfAnalyticsLoaded = (loadAnalytics p).cfAnalyticsLoaded ∧
    loaderInvocations (loadAnalytics p).events
      = loaderInvocations p.events
        ++ (if p.googleLoaderDefined then
              [Event.loaderInvoked .google (getConsent p)] else [])
        ++ (if p.cloudflareLoaderDefined then
              [Event.loaderInvoked .cloudflare (getConsent p)] else []) ∧
    (loadAnalytics p).gaLoaded = p.googleLoaderDefined ∧
    (loadAnalytics p).cfAnalyticsLoaded = p.cloudflareLoaderDefined := by
  obtain ⟨-, hev, hga, hcf⟩ :=
    iterate_loadAnalytics_settled (loadAnalytics p) n (loadAnalytics_settles p)
  obtain ⟨hfev, hfga, hfcf⟩ := loadAnalytics_fresh p hfresh
  rw [Function.iterate_succ_apply]
  refine ⟨hev, hga, hcf, ?_, hfga, hfcf⟩
  rw [hfev]
  cases p.googleLoaderDefined <;> cases p.cloudflareLoaderDefined <;>
    simp [loaderInvocations, Event.isLoaderInvoked, List.filter_append]

theorem loadAnalytics_idempotent_witness :
    loaderInvocations (loadAnalytics^[2 + 1] freshPage).events
      = loaderInvocations (loadAnalytics freshPage).events ∧
    (loadAnalytics^[2 + 1] freshPage).gaLoaded = (loadAnalytics freshPage).gaLoaded ∧
    (loadAnalytics^[2 + 1] freshPage).cfAnalyticsLoaded
      = (loadAnalytics freshPage).cfAnalyticsLoaded ∧
    loaderInvocations (loadAnalytics freshPage).events
      = loaderInvocations freshPage.events
        ++ (if freshPage.googleLoaderDefined then
              [Event.loaderInvoked .google (getConsent freshPage)] else [])
        ++ (if freshPage.cloudflareLoaderDefined then
              [Event.loaderInvoked .cloudflare (getConsent freshPage)] else []) ∧
    (loadAnalytics freshPage).gaLoaded = freshPage.googleLoaderDefined ∧
    (loadAnalytics freshPage).cfAnalyticsLoaded = freshPage.cloudflareLoaderDefined :=
  loadAnalytics_idempotent freshPage 2 ⟨by decide, by decide⟩

/-! ## Expiry -/

theorem checkConsent_eq (tz : TimeZone) (now : Int) (p : Page) :
    checkConsent tz now p
      = if consentExpired tz now p then showBanner (clearConsent p)
        else if !truthy (getItem p.localStorage CONSENT_KEY) then showBanner p
        else .ok (loadUserPreferences p) := rfl

theorem expiryDate_of_sameOffset (tz : TimeZone) (now : Int)
    (h : sameOffsetAtExpiry tz now) :
    setDateRelative tz (newDateNow now) (- CONSENT_EXPIRY_DAYS)
      = timeClip (now - 365 * 86400000) := by
  unfold sameOffsetAtExpiry at h
  simp only [setDateRelative, newDateNow, Option.bind]
  have e : now + tz.offsetOfUTC now + -CONSENT_EXPIRY_DAYS * msPerDay
      = now + tz.offsetOfUTC now - CONSENT_EXPIRY_DAYS * msPerDay := by ring
  rw [e, h]
  congr 1
  simp only [CONSENT_EXPIRY_DAYS, msPerDay]
  ring

theorem not_expired_of_recent (tz : TimeZone) (now : Int) (p : Page) (ts : String) (d : Int)
    (hts : getItem p.localStorage CONSENT_TIMESTAMP = some ts)
    (hparse : parseInt ts = some d)
    (hwithin : now - d ≤ 365 * 86400000)
    (hoff : sameOffsetAtExpiry tz now) :
    consentExpired tz now p = false := by
  unfold consentExpired
  rw [hts]
  dsimp only
  split
  · rw [expiryDate_of_sameOffset tz now hoff, hparse]
    simp only [newDateOfNumber, Option.bind, timeClip]
    split <;> split <;> simp [dateLt]
    omega
  · rfl

theorem expired_of_old (tz : TimeZone) (now : Int) (p : Page) (ts : String) (d : Int)
    (hts : getItem p.localStorage CONSENT_TIMESTAMP = some ts)
    (hparse : parseInt ts = some d)
    (hd : isTimeValue d) (hnow : isTimeValue now)
    (hold : now - d > 365 * 86400000)
    (hoff : sameOffsetAtExpiry tz now) :
    consentExpired tz now p = true := by
  have hne : ts ≠ "" := by
    rintro rfl
    have hnone : parseInt "" = none := by decide
    rw [hnone] at hparse
    cases hparse
  have hexp : isTimeValue (now - 31536000000) := by
    unfold isTimeValue maxTimeValue at *
    omega
  unfold consentExpired
  rw [hts]
  simp [truthy, hne, expiryDate_of_sameOffset tz now hoff, hparse, newDateOfNumber, timeClip,
    hd, hexp, dateLt]
  omega

theorem not_expired_of_no_timestamp (tz : TimeZone) (now : Int) (p : Page)
    (hts : getItem p.localStorage CONSENT_TIMESTAMP = none) :
    consentExpired tz now p = false := by
  unfold consentExpired
  rw [hts]

/-! ## `checkConsent` -/

/-- C5, amended: take any stored record with a non-empty decision, the flag
`"true"` and a timestamp that reads as an instant at most 365 × 86 400 000 ms
before now, on a page with no provider flag set, in a time zone whose UTC
offset 365 calendar days ago is the one in force now.  Then `checkConsent`
completes normally, calls `loadAnalytics` once, which invokes each defined
loader exactly once and none when none is defined, schedules no banner, and
leaves the banner and the store as they were. -/
theorem checkConsent_recent_record_loads (tz : TimeZone) (now : Int) (p : Page)
    (ts : String) (d : Int)
    (hdecision : truthy (getItem p.localStorage CONSENT_KEY) = true)
    (hflag : getItem p.localStorage ANALYTICS_KEY = some "true")
    (hts : getItem p.localStorage CONSENT_TIMESTAMP = some ts)
    (hparse : parseInt ts = some d)
    (hwithin : now - d ≤ 365 * 86400000)
    (hoff : sameOffsetAtExpiry tz now)
    (hfresh : p.gaLoaded = false ∧ p.cfAnalyticsLoaded = false) :
    (checkConsent tz now p).completion = .normal ∧
    (checkConsent tz now p).page.events
      = p.events ++ [Event.loadAnalyticsCalled (getConsent p)]
        ++ (if p.googleLoaderDefined then
              [Event.loaderInvoked .google (getConsent p),
                Event.consoleLog "Google Analytics loaded"] else [])
        ++ (if p.cloudflareLoaderDefined then
              [Event.loaderInvoked .cloudflare (getConsent p),
                Event.consoleLog "Cloudflare Analytics loaded"] else []) ∧
    (checkConsent tz now p).page.bannerTimers = p.bannerTimers ∧
    (checkConsent tz now p).page.cookieConsent = p.cookieConsent ∧
    (checkConsent tz now p).page.localStorage = p.localStorage := by
  have hrun : checkConsent tz now p = .ok (loadAnalytics p) := by
    rw [checkConsent_eq, not_expired_of_recent tz now p ts d hts hparse hwithin hoff]
    simp [hdecision, loadUserPreferences, hflag]
  rw [hrun]
  obtain ⟨hev, -, -⟩ := loadAnalytics_fresh p hfresh
  obtain ⟨hbanner, -, -, -, htimers⟩ := loadAnalytics_dom p
  exact ⟨rfl, hev, htimers, hbanner, loadAnalytics_localStorage p⟩

theorem checkConsent_recent_record_loads_witness :
    1800000000000 - 1790000000000 ≤ (365 * 86400000 : Int) ∧
    (checkConsent utc 1800000000000
        (pageWithRecord (some "accepted") (some "true") (some "1790000000000"))).page.events
      = [Event.loadAnalyticsCalled ⟨some "accepted", some "true", some "1790000000000"⟩,
          Event.loaderInvoked .google ⟨some "accepted", some "true", some "1790000000000"⟩,
          Event.consoleLog "Google Analytics loaded",
          Event.loaderInvoked .cloudflare ⟨some "accepted", some "true", some "1790000000000"⟩,
          Event.consoleLog "Cloudflare Analytics loaded"] :=
  ⟨by decide,
    (checkConsent_recent_record_loads utc 1800000000000
      (pageWithRecord (some "accepted") (some "true") (some "1790000000000"))
      "1790000000000" 1790000000000 (by decide) (by decide) (by decide) (by decide)
      (by decide) rfl ⟨rfl, rfl⟩).2.1⟩

/-- C5 as stated fails where the clocks changed during the year: in Berlin at
noon of 28 March 2027 a record accepted 365 days less half an hour earlier is
within 365 × 86 400 000 ms, yet `checkConsent` clears it and schedules the
banner without invoking a loader. -/
theorem checkConsent_clears_recent_record_in_berlin :
    berlinSpringNoon - 1774693800000 ≤ 365 * 86400000 ∧
    parseInt "1774693800000" = some 1774693800000 ∧
    getConsent berlinSpringPage
      = ⟨some "accepted", some "true", some "1774693800000"⟩ ∧
    berlinSpringPage.gaLoaded = false ∧ berlinSpringPage.cfAnalyticsLoaded = false ∧
    getConsent (checkConsent europeBerlin berlinSpringNoon berlinSpringPage).page
      = ⟨none, none, none⟩ ∧
    (checkConsent europeBerlin berlinSpringNoon berlinSpringPage).page.events = [] ∧
    (checkConsent europeBerlin berlinSpringNoon berlinSpringPage).page.bannerTimers = 1 := by
  decide

/-- C6, amended: take any stored record whose timestamp reads as a time value
more than 365 × 86 400 000 ms before now, whatever its decision and flag, in a
time zone whose UTC offset 365 calendar days ago is the one in force now.
Then `checkConsent` removes the three keys and ends exactly as it does on the
page with the three keys already removed: same page, same completion, one
banner timer scheduled, nothing added to the log, no provider flag changed. -/
theorem checkConsent_expired_record_as_absent (tz : TimeZone) (now : Int) (p : Page)
    (ts : String) (d : Int)
    (hts : getItem p.localStorage CONSENT_TIMESTAMP = some ts)
    (hparse : parseInt ts = some d)
    (hd : isTimeValue d) (hnow : isTimeValue now)
    (hold : now - d > 365 * 86400000)
    (hoff : sameOffsetAtExpiry tz now) :
    checkConsent tz now p = checkConsent tz now (clearConsent p) ∧
    (checkConsent tz now p).completion = .normal ∧
    getConsent (checkConsent tz now p).page = ⟨none, none, none⟩ ∧
    (checkConsent tz now p).page.bannerTimers = p.bannerTimers + 1 ∧
    (checkConsent tz now p).page.events = p.events ∧
    (checkConsent tz now p).page.gaLoaded = p.gaLoaded ∧
    (checkConsent tz now p).page.cfAnalyticsLoaded = p.cfAnalyticsLoaded := by
  have hclear := getConsent_clearConsent p
  have hcts : getItem (clearConsent p).localStorage CONSENT_TIMESTAMP = none :=
    congrArg ConsentSnapshot.timestamp hclear
  have hckey : getItem (clearConsent p).localStorage CONSENT_KEY = none :=
    congrArg ConsentSnapshot.consent hclear
  have hrun : checkConsent tz now p = showBanner (clearConsent p) := by
    rw [checkConsent_eq, expired_of_old tz now p ts d hts hparse hd hnow hold hoff]
    rfl
  have hrun2 : checkConsent tz now (clearConsent p) = showBanner (clearConsent p) := by
    rw [checkConsent_eq, not_expired_of_no_timestamp tz now _ hcts, hckey]
    rfl
  rw [hrun2, hrun]
  exact ⟨rfl, rfl, hclear, rfl, rfl, rfl, rfl⟩

theorem checkConsent_expired_record_as_absent_witness :
    1800000000000 - 1700000000000 > (365 * 86400000 : Int) ∧
    checkConsent utc 1800000000000
        (pageWithRecord (some "rejected") (some "false") (some "1700000000000"))
      = checkConsent utc 1800000000000
          (clearConsent
            (pageWithRecord (some "rejected") (some "false") (some "1700000000000"))) :=
  ⟨by decide,
    (checkConsent_expired_record_as_absent utc 1800000000000
      (pageWithRecord (some "rejected") (some "false") (some "1700000000000"))
      "1700000000000" 1700000000000 (by decide) (by decide) (by decide) (by decide)
      (by decide) rfl).1⟩

/-- C6 as stated fails where the clocks changed during the year: in Berlin at
noon of 25 October 2026 a record accepted 365 days and half an hour earlier is
older than 365 × 86 400 000 ms, yet `checkConsent` keeps it, schedules no
banner and invokes both loaders, unlike the run on the cleared store.  It also
fails for a timestamp below the range of time values, which makes an invalid
date that compares false: that record is kept as well. -/
theorem checkConsent_keeps_old_record_in_berlin :
    berlinAutumnNoon - 1761388200000 > 365 * 86400000 ∧
    parseInt "1761388200000" = some 1761388200000 ∧
    getConsent (checkConsent europeBerlin berlinAutumnNoon berlinAutumnPage).page
      = ⟨some "accepted", some "true", some "1761388200000"⟩ ∧
    (checkConsent europeBerlin berlinAutumnNoon berlinAutumnPage).page.bannerTimers = 0 ∧
    loaderInvocations
        (checkConsent europeBerlin berlinAutumnNoon berlinAutumnPage).page.events
      = [Event.loaderInvoked .google ⟨some "accepted", some "true", some "1761388200000"⟩,
          Event.loaderInvoked .cloudflare
            ⟨some "accepted", some "true", some "1761388200000"⟩] ∧
    (checkConsent europeBerlin berlinAutumnNoon
      (clearConsent berlinAutumnPage)).page.bannerTimers = 1 ∧
    (checkConsent europeBerlin berlinAutumnNoon
      (clearConsent berlinAutumnPage)).page.events = [] ∧
    1800000000000 - (-8640000000000001) > (365 * 86400000 : Int) ∧
    parseInt "-8640000000000001" = some (-8640000000000001) ∧
    getConsent (checkConsent utc 1800000000000
        (pageWithRecord (some "accepted") (some "true")
          (some "-8640000000000001"))).page
      = ⟨some "accepted", some "true", some "-8640000000000001"⟩ ∧
    (checkConsent utc 1800000000000
      (pageWithRecord (some "accepted") (some "true")
        (some "-8640000000000001"))).page.bannerTimers = 0 := by
  decide

/-- C8, amended: only a missing decision degrades to unset.  For every stored
state whose decision key is absent or empty, or whose flag is anything but
`"true"`, whatever the other keys hold, `checkConsent` completes normally,
adds nothing to the log and changes no provider flag; when the decision key is
absent or empty it also schedules the banner. -/
theorem checkConsent_missing_decision_or_flag (tz : TimeZone) (now : Int) (p : Page)
    (h : truthy (getItem p.localStorage CONSENT_KEY) = false ∨
      getItem p.localStorage ANALYTICS_KEY ≠ some "true") :
    (checkConsent tz now p).completion = .normal ∧
    (checkConsent tz now p).page.events = p.events ∧
    (checkConsent tz now p).page.gaLoaded = p.gaLoaded ∧
    (checkConsent tz now p).page.cfAnalyticsLoaded = p.cfAnalyticsLoaded ∧
    (truthy (getItem p.localStorage CONSENT_KEY) = false →
      (checkConsent tz now p).page.bannerTimers = p.bannerTimers + 1) := by
  rw [checkConsent_eq]
  cases hexp : consentExpired tz now p
  · cases hdec : truthy (getItem p.localStorage CONSENT_KEY)
    · exact ⟨rfl, rfl, rfl, rfl, fun _ => rfl⟩
    · have hflag : getItem p.localStorage ANALYTICS_KEY ≠ some "true" := by
        rcases h with h | h
        · rw [hdec] at h; cases h
        · exact h
      simp [loadUserPreferences, hflag, Outcome.ok]
  · exact ⟨rfl, rfl, rfl, rfl, fun _ => rfl⟩

theorem checkConsent_missing_decision_or_flag_witness :
    truthy (getItem (pageWithRecord none (some "true") (some "x")).localStorage CONSENT_KEY)
      = false ∧
    (checkConsent utc 1800000000000
      (pageWithRecord none (some "true") (some "x"))).page.events = [] ∧
    (checkConsent utc 1800000000000
      (pageWithRecord none (some "true") (some "x"))).page.bannerTimers = 1 :=
  ⟨by decide,
    (checkConsent_missing_decision_or_flag utc 1800000000000
      (pageWithRecord none (some "true") (some "x")) (Or.inl (by decide))).2.1,
    (checkConsent_missing_decision_or_flag utc 1800000000000
      (pageWithRecord none (some "true") (some "x")) (Or.inl (by decide))).2.2.2.2
      (by decide)⟩

/-- C8 as stated fails: a record with no timestamp, a record whose timestamp
is not a number, and a record whose decision is not one of the three literals
are all used as stored, with both loaders invoked and no banner scheduled; a
record whose flag is malformed schedules no banner either. -/
theorem checkConsent_uses_malformed_record :
    (checkConsent utc 1800000000000
      (pageWithRecord (some "accepted") (some "true") none)).page.bannerTimers = 0 ∧
    loaderInvocations (checkConsent utc 1800000000000
        (pageWithRecord (some "accepted") (some "true") none)).page.events
      = [Event.loaderInvoked .google ⟨some "accepted", some "true", none⟩,
          Event.loaderInvoked .cloudflare ⟨some "accepted", some "true", none⟩] ∧
    (checkConsent utc 1800000000000
      (pageWithRecord (some "accepted") (some "true") (some "soon"))).page.bannerTimers = 0 ∧
    loaderInvocations (checkConsent utc 1800000000000
        (pageWithRecord (some "accepted") (some "true") (some "soon"))).page.events
      = [Event.loaderInvoked .google ⟨some "accepted", some "true", some "soon"⟩,
          Event.loaderInvoked .cloudflare ⟨some "accepted", some "true", some "soon"⟩] ∧
    (checkConsent utc 1800000000000
      (pageWithRecord (some "maybe") (some "true")
        (some "1790000000000"))).page.bannerTimers = 0 ∧
    loaderInvocations (checkConsent utc 1800000000000
        (pageWithRecord (some "maybe") (some "true") (some "1790000000000"))).page.events
      = [Event.loaderInvoked .google ⟨some "maybe", some "true", some "1790000000000"⟩,
          Event.loaderInvoked .cloudflare
            ⟨some "maybe", some "true", some "1790000000000"⟩] ∧
    (checkConsent utc 1800000000000
      (pageWithRecord (some "accepted") (some "yes")
        (some "1790000000000"))).page.bannerTimers = 0 := by
  decide

/-! ## Page lifetimes: what one handler does to the store and to the log -/

theorem consentGated_of_no_loader (es : List Event) (h : loaderInvocations es = []) :
    consentGated es := by
  intro w s hmem
  have : Event.loaderInvoked w s ∈ loaderInvocations es :=
    List.mem_filter.mpr ⟨hmem, rfl⟩
  rw [h] at this
  cases this

theorem consentGated_append (es fs : List Event) (h1 : consentGated es)
    (h2 : consentGated fs) : consentGated (es ++ fs) := by
  intro w s hmem
  rcases List.mem_append.mp hmem with h | h
  · exact h1 w s h
  · exact h2 w s h

/-- The log after `loadAnalytics` on a page whose stored flag is `"true"`. -/
theorem loadAnalytics_gated (p : Page)
    (hflag : getItem p.localStorage ANALYTICS_KEY = some "true") :
    ∃ added, (loadAnalytics p).events = p.events ++ added ∧ consentGated added := by
  obtain ⟨rest, hev, -, hsnap⟩ := loadAnalytics_events p
  refine ⟨_, hev, ?_⟩
  intro w s hmem
  rcases List.mem_cons.mp hmem with h | h
  · cases h
  · rw [hsnap w s h]
    exact hflag

theorem acceptAll_store (now : Int) (p : Page) :
    getConsent (acceptAll now p).page
      = ⟨some "accepted", some "true", some (numberToString now)⟩ := by
  have hsave := getConsent_saveConsent "accepted" true now p
  cases hb : p.cookieConsent with
  | none =>
    have hrun : acceptAll now p = .throw (saveConsent "accepted" true now p) := by
      simp [acceptAll, hideBanner, saveConsent, hb, Outcome.next, Outcome.throw]
    rw [hrun]
    exact hsave
  | some shown =>
    have hrun : acceptAll now p
        = .ok (showConfirmationMessage "✓ Cookie preferences saved. Thank you!"
            (loadAnalytics
              { saveConsent "accepted" true now p with cookieConsent := some false })) := by
      simp [acceptAll, hideBanner, saveConsent, hb, Outcome.next, Outcome.ok]
    rw [hrun]
    show getConsent (loadAnalytics _) = _
    rw [getConsent_loadAnalytics]
    exact hsave

theorem acceptAll_gated (now : Int) (p : Page) :
    ∃ added, (acceptAll now p).page.events = p.events ++ added ∧ consentGated added := by
  cases hb : p.cookieConsent with
  | none =>
    have hrun : acceptAll now p = .throw (saveConsent "accepted" true now p) := by
      simp [acceptAll, hideBanner, saveConsent, hb, Outcome.next, Outcome.throw]
    rw [hrun]
    exact ⟨[], by simp [Outcome.throw, saveConsent], by intro w s h; cases h⟩
  | some shown =>
    have hrun : acceptAll now p
        = .ok (showConfirmationMessage "✓ Cookie preferences saved. Thank you!"
            (loadAnalytics
              { saveConsent "accepted" true now p with cookieConsent := some false })) := by
      simp [acceptAll, hideBanner, saveConsent, hb, Outcome.next, Outcome.ok]
    have hflag : getItem ({ saveConsent "accepted" true now p with
        cookieConsent := some false } : Page).localStorage ANALYTICS_KEY = some "true" :=
      congrArg ConsentSnapshot.analytics (getConsent_saveConsent "accepted" true now p)
    obtain ⟨added, hev, hg⟩ := loadAnalytics_gated _ hflag
    rw [hrun]
    refine ⟨added ++ [.toast "✓ Cookie preferences saved. Thank you!"], ?_, ?_⟩
    · show (loadAnalytics _).events ++ _ = _
      rw [hev]
      simp [saveConsent]
    · exact consentGated_append _ _ hg (consentGated_of_no_loader _ rfl)

theorem rejectAll_store_and_log (now : Int) (p : Page) :
    getConsent (rejectAll now p).page
      = ⟨some "rejected", some "false", some (numberToString now)⟩ ∧
    ∃ added, (rejectAll now p).page.events = p.events ++ added ∧ consentGated added := by
  have hsave := getConsent_saveConsent "rejected" false now p
  cases hb : p.cookieConsent with
  | none =>
    have hrun : rejectAll now p = .throw (saveConsent "rejected" false now p) := by
      simp [rejectAll, hideBanner, saveConsent, hb, Outcome.next, Outcome.throw]
    rw [hrun]
    exact ⟨hsave, [], by simp [Outcome.throw, saveConsent], by intro w s h; cases h⟩
  | some shown =>
    have hrun : rejectAll now p
        = .ok (showConfirmationMessage "✓ Only essential cookies will be used."
            { saveConsent "rejected" false now p with cookieConsent := some false }) := by
      simp [rejectAll, hideBanner, saveConsent, hb, Outcome.next, Outcome.ok]
    rw [hrun]
    exact ⟨hsave, [.toast "✓ Only essential cookies will be used."], rfl,
      consentGated_of_no_loader _ rfl⟩

theorem saveCustomPreferences_eq (now : Int) (p : Page) :
    ∃ b : Bool, saveCustomPreferences now p
      = (((hideModal (if b then loadAnalytics (saveConsent "custom" b now p)
            else saveConsent "custom" b now p)).next hideBanner).next fun q =>
          .ok (showConfirmationMessage "✓ Your cookie preferences have been saved." q)) := by
  rcases ht : p.analyticsToggle with _ | _ | _
  · exact ⟨false, by simp [saveCustomPreferences, ht]⟩
  · exact ⟨false, by simp [saveCustomPreferences, ht]⟩
  · exact ⟨true, by simp [saveCustomPreferences, ht]⟩

theorem saveCustomPreferences_store_and_log (now : Int) (p : Page) :
    (∃ b : Bool, getConsent (saveCustomPreferences now p).page
      = ⟨some "custom", some (boolToString b), some (numberToString now)⟩) ∧
    ∃ added, (saveCustomPreferences now p).page.events = p.events ++ added ∧
      consentGated added := by
  obtain ⟨b, hrun⟩ := saveCustomPreferences_eq now p
  have hsave := getConsent_saveConsent "custom" b now p
  rw [hrun]
  cases b
  · simp only [Bool.false_eq_true, ↓reduceIte]
    obtain ⟨hls, added, hev, -, hinv⟩ := hide_and_confirm_frame
      "✓ Your cookie preferences have been saved." (saveConsent "custom" false now p)
    refine ⟨⟨false, ?_⟩, added, ?_, consentGated_of_no_loader _ hinv⟩
    · simpa [getConsent, hls] using hsave
    · rw [hev]; simp [saveConsent]
  · simp only [↓reduceIte]
    obtain ⟨hls, added, hev, -, hinv⟩ := hide_and_confirm_frame
      "✓ Your cookie preferences have been saved."
      (loadAnalytics (saveConsent "custom" true now p))
    have hflag : getItem (saveConsent "custom" true now p).localStorage ANALYTICS_KEY
        = some "true" := congrArg ConsentSnapshot.analytics hsave
    obtain ⟨added2, hev2, hg⟩ := loadAnalytics_gated _ hflag
    refine ⟨⟨true, ?_⟩, added2 ++ added, ?_, ?_⟩
    · have : getConsent (loadAnalytics (saveConsent "custom" true now p))
          = ⟨some "custom", some (boolToString true), some (numberToString now)⟩ := by
        rw [getConsent_loadAnalytics, hsave]
      simpa [getConsent, hls] using this
    · rw [hev, hev2]; simp [saveConsent]
    · exact consentGated_append _ _ hg (consentGated_of_no_loader _ hinv)

theorem checkConsent_store_and_log (tz : TimeZone) (now : Int) (p : Page) :
    (getConsent (checkConsent tz now p).page = getConsent p ∨
      getConsent (checkConsent tz now p).page = ⟨none, none, none⟩) ∧
    ∃ added, (checkConsent tz now p).page.events = p.events ++ added ∧
      consentGated added := by
  rw [checkConsent_eq]
  cases consentExpired tz now p
  · cases truthy (getItem p.localStorage CONSENT_KEY)
    · exact ⟨Or.inl rfl, [], by simp [showBanner, Outcome.ok], by intro w s h; cases h⟩
    · by_cases hflag : getItem p.localStorage ANALYTICS_KEY = some "true"
      · obtain ⟨added, hev, hg⟩ := loadAnalytics_gated p hflag
        simp only [Bool.not_true, Bool.false_eq_true, ↓reduceIte, loadUserPreferences, hflag,
          Outcome.ok]
        exact ⟨Or.inl (getConsent_loadAnalytics p), added, hev, hg⟩
      · simp only [Bool.not_true, Bool.false_eq_true, ↓reduceIte, loadUserPreferences, hflag,
          Outcome.ok]
        exact ⟨Or.inl trivial, [], by simp, by intro w s h; cases h⟩
  · exact ⟨Or.inr (getConsent_clearConsent p), [], by simp [showBanner, Outcome.ok, clearConsent],
      by intro w s h; cases h⟩

/-- The stored records a handler can leave behind. -/
theorem step_store (tz : TimeZone) (op : Op) (p : Page) :
    getConsent (step tz op p) = getConsent p ∨
    getConsent (step tz op p) = ⟨none, none, none⟩ ∨
    (∃ now, getConsent (step tz op p)
      = ⟨some "accepted", some "true", some (numberToString now)⟩) ∨
    (∃ now, getConsent (step tz op p)
      = ⟨some "rejected", some "false", some (numberToString now)⟩) ∨
    (∃ b now, getConsent (step tz op p)
      = ⟨some "custom", some (boolToString b), some (numberToString now)⟩) := by
  cases op with
  | checkConsent now =>
    rcases (checkConsent_store_and_log tz now p).1 with h | h
    · exact Or.inl h
    · exact Or.inr (Or.inl h)
  | acceptAll now => exact Or.inr (Or.inr (Or.inl ⟨now, acceptAll_store now p⟩))
  | rejectAll now =>
    exact Or.inr (Or.inr (Or.inr (Or.inl ⟨now, (rejectAll_store_and_log now p).1⟩)))
  | saveCustomPreferences now =>
    obtain ⟨b, hb⟩ := (saveCustomPreferences_store_and_log now p).1
    exact Or.inr (Or.inr (Or.inr (Or.inr ⟨b, now, hb⟩)))
  | clearConsent => exact Or.inr (Or.inl (getConsent_clearConsent p))
  | showBanner =>
    left
    rfl
  | showModal =>
    left
    cases hm : p.cookieModal <;> cases ht : p.analyticsToggle <;>
      simp [step, showModal, hm, ht, getConsent, Outcome.ok, Outcome.throw]
  | hideModal =>
    left
    cases hm : p.cookieModal <;> simp [step, hideModal, hm, getConsent, Outcome.ok, Outcome.throw]
  | bannerTimerFires =>
    left
    cases hn : p.bannerTimers <;> cases hb : p.cookieConsent <;>
      simp [step, showBannerCallback, hn, hb, getConsent, Outcome.ok, Outcome.throw]
  | userSetsToggle checked =>
    left
    cases ht : p.analyticsToggle <;> simp [step, ht, getConsent]

/-- What a handler adds to the log. -/
theorem step_gated (tz : TimeZone) (op : Op) (p : Page) :
    ∃ added, (step tz op p).events = p.events ++ added ∧ consentGated added := by
  have hnil : consentGated [] := by intro w s h; cases h
  cases op with
  | checkConsent now => exact (checkConsent_store_and_log tz now p).2
  | acceptAll now => exact acceptAll_gated now p
  | rejectAll now => exact (rejectAll_store_and_log now p).2
  | saveCustomPreferences now => exact (saveCustomPreferences_store_and_log now p).2
  | clearConsent => exact ⟨[], by simp [step, clearConsent], hnil⟩
  | showBanner => exact ⟨[], by simp [step, showBanner, Outcome.ok], hnil⟩
  | showModal =>
    refine ⟨[], ?_, hnil⟩
    cases hm : p.cookieModal <;> cases ht : p.analyticsToggle <;>
      simp [step, showModal, hm, ht, Outcome.ok, Outcome.throw]
  | hideModal =>
    refine ⟨[], ?_, hnil⟩
    cases hm : p.cookieModal <;> simp [step, hideModal, hm, Outcome.ok, Outcome.throw]
  | bannerTimerFires =>
    refine ⟨[], ?_, hnil⟩
    cases hn : p.bannerTimers <;> cases hb : p.cookieConsent <;>
      simp [step, showBannerCallback, hn, hb, Outcome.ok, Outcome.throw]
  | userSetsToggle checked =>
    refine ⟨[], ?_, hnil⟩
    cases ht : p.analyticsToggle <;> simp [step, ht]

theorem recordInvariant_step (tz : TimeZone) (op : Op) (p : Page)
    (h : recordInvariant (getConsent p)) : recordInvariant (getConsent (step tz op p)) := by
  rcases step_store tz op p with e | e | ⟨now, e⟩ | ⟨now, e⟩ | ⟨b, now, e⟩
  · rw [e]; exact h
  · rw [e]; exact ⟨Or.inl ⟨rfl, rfl, rfl⟩, by simp, by simp⟩
  · rw [e]; exact ⟨Or.inr ⟨rfl, rfl, rfl⟩, by simp, by simp⟩
  · rw [e]; exact ⟨Or.inr ⟨rfl, rfl, rfl⟩, by simp, by simp⟩
  · rw [e]; exact ⟨Or.inr ⟨rfl, rfl, rfl⟩, by simp, by simp⟩

/-! ## Page lifetimes: the two invariants -/

/-- C1: from every page, whatever is stored on it, and through every sequence
of `checkConsent`, `acceptAll`, `rejectAll`, `saveCustomPreferences`,
`clearConsent`, `showBanner`, `showModal`, `hideModal`, banner timers and
toggle clicks, every invocation of `loadGoogleAnalytics` or
`loadCloudflareAnalytics` that the sequence adds to the log happened while the
entry `bezott_analytics_consent` held the string `"true"`. -/
theorem loaders_only_under_consent (tz : TimeZone) (ops : List Op) (p : Page) :
    ∃ added, (run tz ops p).events = p.events ++ added ∧
      ∀ w s, Event.loaderInvoked w s ∈ added → s.analytics = some "true" := by
  induction ops generalizing p with
  | nil => exact ⟨[], by simp [run], by intro w s h; cases h⟩
  | cons op ops ih =>
    obtain ⟨added1, hev1, hg1⟩ := step_gated tz op p
    obtain ⟨added2, hev2, hg2⟩ := ih (step tz op p)
    refine ⟨added1 ++ added2, ?_, consentGated_append _ _ hg1 hg2⟩
    show (run tz ops (step tz op p)).events = _
    rw [hev2, hev1, List.append_assoc]

/-- C10: starting from a store without the three keys, after every sequence of
`checkConsent`, `acceptAll`, `rejectAll`, `saveCustomPreferences`,
`clearConsent`, `showBanner`, `showModal`, `hideModal`, banner timers and
toggle clicks, the three keys are all present or all absent, an `accepted`
decision has the flag `"true"` and a `rejected` decision has the flag
`"false"`. -/
theorem recordInvariant_reachable (tz : TimeZone) (ops : List Op) (p : Page)
    (hempty : getConsent p = ⟨none, none, none⟩) :
    recordInvariant (getConsent (run tz ops p)) := by
  have hinit : recordInvariant (getConsent p) := by
    rw [hempty]; exact ⟨Or.inl ⟨rfl, rfl, rfl⟩, by simp, by simp⟩
  clear hempty
  induction ops generalizing p with
  | nil => exact hinit
  | cons op ops ih => exact ih (step tz op p) (recordInvariant_step tz op p hinit)

theorem recordInvariant_reachable_witness :
    getConsent freshPage = ⟨none, none, none⟩ ∧
    recordInvariant (getConsent (run utc
      [.checkConsent 1700000000000, .showModal, .userSetsToggle true,
        .saveCustomPreferences 1700000001000, .rejectAll 1700000002000,
        .checkConsent 1800000000000, .acceptAll 1800000001000] freshPage)) :=
  ⟨by decide,
    recordInvariant_reachable utc
      [.checkConsent 1700000000000, .showModal, .userSetsToggle true,
        .saveCustomPreferences 1700000001000, .rejectAll 1700000002000,
        .checkConsent 1800000000000, .acceptAll 1800000001000] freshPage (by decide)⟩

/-! ## Reading back a stored timestamp -/

theorem digitValue_digitChar (d : Nat) (h : d < 10) :
    digitValue (Nat.digitChar d) = some d := by
  interval_cases d <;> decide

theorem isWhiteSpace_digitChar (d : Nat) (h : d < 10) :
    isWhiteSpace (Nat.digitChar d) = false := by
  interval_cases d <;> decide

theorem leadingDigits_map_digitChar (ds : List Nat) (h : ∀ d ∈ ds, d < 10) :
    leadingDigits 10 (ds.map Nat.digitChar) = ds := by
  induction ds with
  | nil => rfl
  | cons d ds ih =>
    have hd : d < 10 := h d (List.mem_cons_self _ _)
    have hrest : ∀ e ∈ ds, e < 10 := fun e he => h e (List.mem_cons_of_mem _ he)
    simp [leadingDigits, digitValue_digitChar d hd, hd, ih hrest]

/-- The decimal digits `Nat.toDigitsCore` puts in front of its accumulator. -/
theorem toDigitsCore_digits (fuel n : Nat) (acc : List Char) (h : n < fuel) :
    ∃ ds : List Nat, ds ≠ [] ∧ (∀ d ∈ ds, d < 10) ∧
      Nat.toDigitsCore 10 fuel n acc = ds.map Nat.digitChar ++ acc ∧
      digitsValue 10 ds = n := by
  induction fuel generalizing n acc with
  | zero => omega
  | succ fuel ih =>
    unfold Nat.toDigitsCore
    by_cases hq : n / 10 = 0
    · refine ⟨[n % 10], by simp, ?_, by simp [hq], ?_⟩
      · intro d hd
        rw [List.mem_singleton.mp hd]
        omega
      · simp [digitsValue]
        omega
    · have hlt : n / 10 < fuel := by omega
      obtain ⟨ds, hne, hall, heq, hval⟩ := ih (n / 10) (Nat.digitChar (n % 10) :: acc) hlt
      refine ⟨ds ++ [n % 10], by simp, ?_, ?_, ?_⟩
      · intro d hd
        rcases List.mem_append.mp hd with h1 | h1
        · exact hall d h1
        · rw [List.mem_singleton.mp h1]
          omega
      · simp [hq, heq]
      · unfold digitsValue at hval ⊢
        rw [List.foldl_append, hval]
        simp
        omega

theorem parseMagnitude_digits (ds : List Nat) (hne : ds ≠ []) (h : ∀ d ∈ ds, d < 10) :
    parseMagnitude (ds.map Nat.digitChar) = some (digitsValue 10 ds) := by
  have hlead := leadingDigits_map_digitChar ds h
  unfold parseMagnitude
  split
  · rename_i rest heq
    exfalso
    rcases ds with _ | ⟨d, _ | ⟨e, ds⟩⟩
    · simp at heq
    · simp at heq
    · simp only [List.map_cons, List.cons.injEq] at heq
      have he : e < 10 := h e (by simp)
      have := heq.2.1
      interval_cases e <;> revert this <;> decide
  · rename_i rest heq
    exfalso
    rcases ds with _ | ⟨d, _ | ⟨e, ds⟩⟩
    · simp at heq
    · simp at heq
    · simp only [List.map_cons, List.cons.injEq] at heq
      have he : e < 10 := h e (by simp)
      have := heq.2.1
      interval_cases e <;> revert this <;> decide
  · rw [hlead]
    cases ds with
    | nil => exact absurd rfl hne
    | cons d ds => rfl

theorem parseInt_natRepr (n : Nat) : parseInt (Nat.repr n) = some (n : Int) := by
  obtain ⟨ds, hne, hall, heq, hval⟩ := toDigitsCore_digits (n + 1) n [] (Nat.lt_succ_self n)
  have hlist : (Nat.repr n).toList = ds.map Nat.digitChar := by
    simp [Nat.repr, Nat.toDigits, heq, List.asString]
  have hmag := parseMagnitude_digits ds hne hall
  unfold parseInt
  rw [hlist]
  cases ds with
  | nil => exact absurd rfl hne
  | cons d ds =>
    have hd : d < 10 := hall d (List.mem_cons_self _ _)
    have hws := isWhiteSpace_digitChar d hd
    simp only [List.map_cons, List.dropWhile_cons, hws]
    simp only [List.map_cons] at hmag
    split
    · rename_i rest heq2
      exfalso
      simp only [Bool.false_eq_true, ↓reduceIte, List.cons.injEq] at heq2
      have := heq2.1
      interval_cases d <;> revert this <;> decide
    · rename_i rest heq2
      exfalso
      simp only [Bool.false_eq_true, ↓reduceIte, List.cons.injEq] at heq2
      have := heq2.1
      interval_cases d <;> revert this <;> decide
    · simp [hmag, hval]

/-- The timestamp `saveConsent` writes reads back as the same integer. -/
theorem parseInt_numberToString (n : Int) : parseInt (numberToString n) = some n := by
  cases n with
  | ofNat m => exact parseInt_natRepr m
  | negSucc m =>
    obtain ⟨ds, hne, hall, heq, hval⟩ :=
      toDigitsCore_digits (m + 1 + 1) (m + 1) [] (Nat.lt_succ_self _)
    have hlist : (numberToString (Int.negSucc m)).toList = '-' :: ds.map Nat.digitChar := by
      show ("-" ++ Nat.repr (m + 1)).toList = _
      simp [Nat.repr, Nat.toDigits, heq, List.asString]
    have hmag := parseMagnitude_digits ds hne hall
    unfold parseInt
    rw [hlist]
    have hws : isWhiteSpace '-' = false := by decide
    simp only [List.dropWhile_cons, hws, Bool.false_eq_true, ↓reduceIte, hmag, hval,
      Option.map_some']
    rfl

end CookieConsent
